import Mathlib

/-!
Verification of the energy-monitor dashboard pipeline (src/dashboard.py).

The dashboard loads a table of POP inspection records from a spreadsheet,
filters it by city and technician, computes summary counts and percentages,
builds two pivot (contingency) tables and a monitor-type frequency table,
shows an editable detail table, and can write that table back to the sheet.

The embedding below mirrors the pandas operations on an explicit list of
records.  A DataFrame row becomes a `SiteRecord`; a DataFrame becomes a
`List SiteRecord` in source order; pandas boolean-mask filtering becomes
`List.filter`; `groupby(...).size().unstack(fill_value=0)` becomes a list
of rows of per-key counts (row/column order of a pivot table is not
significant to any property proved here, so keys are enumerated in first
appearance order rather than pandas sorted order); numeric percentages are
modelled over `ℚ` (the Python computation is exact here up to float
rounding, which no claim depends on).
-/

namespace Dashboard

/-- One row of the worksheet, with the eight required columns of
`required_cols` in dashboard.py (lines 78-82). -/
structure SiteRecord where
  cidade : String
  responsavelTecnico : String
  localVistoria : String
  monitorEnergia : String
  tipoMonitor : String
  ligacaoMonitor : String
  observacoes : String
  linkEvidencias : String
deriving DecidableEq, Repr

/-- The sidebar filter state: the two selectbox values
(`cidade_selecionada`, `tecnico_selecionado`, lines 92 and 95). -/
structure Selector where
  cidadeSelecionada : String
  tecnicoSelecionado : String
deriving DecidableEq, Repr

/-- Lines 97-101: start from a copy of `df`, then restrict by city when the
city selectbox is not the `"Todas"` sentinel, then restrict by technician
when the technician selectbox is not the `"Todos"` sentinel. -/
def df_filtrado (df : List SiteRecord) (sel : Selector) : List SiteRecord :=
  let d := df
  let d := if sel.cidadeSelecionada ≠ "Todas"
    then d.filter (fun r => r.cidade == sel.cidadeSelecionada) else d
  let d := if sel.tecnicoSelecionado ≠ "Todos"
    then d.filter (fun r => r.responsavelTecnico == sel.tecnicoSelecionado) else d
  d

/-- Line 106: `total_pops = len(df_filtrado)` applied to any subset. -/
def total_pops (l : List SiteRecord) : Nat := l.length

/-- Line 107: number of rows whose monitor column is exactly `"Sim"`. -/
def com_monitor (l : List SiteRecord) : Nat :=
  (l.filter (fun r => r.monitorEnergia == "Sim")).length

/-- Line 108: number of rows whose monitor column is exactly `"Não"`. -/
def sem_monitor (l : List SiteRecord) : Nat :=
  (l.filter (fun r => r.monitorEnergia == "Não")).length

/-- Line 109: `(com_monitor / total_pops * 100) if total_pops > 0 else 0`,
over exact rationals. -/
def percentual_com_monitor (l : List SiteRecord) : ℚ :=
  if total_pops l > 0
  then (com_monitor l : ℚ) / (total_pops l : ℚ) * 100
  else 0

/-- The inclusion predicate stated by the spec for the Filter Engine: keep a record iff
(city sentinel or exact city match) and (technician sentinel or exact
technician match). -/
def filterPred (sel : Selector) (r : SiteRecord) : Bool :=
  (sel.cidadeSelecionada == "Todas" || r.cidade == sel.cidadeSelecionada) &&
  (sel.tecnicoSelecionado == "Todos" || r.responsavelTecnico == sel.tecnicoSelecionado)

/-- The two sequential restrictions of lines 97-101 compute one
`List.filter` over the conjunction predicate. -/
theorem df_filtrado_filter_spec (df : List SiteRecord) (sel : Selector) :
    df_filtrado df sel = df.filter (filterPred sel) := by
  unfold df_filtrado filterPred
  by_cases hc : sel.cidadeSelecionada = "Todas" <;>
    by_cases ht : sel.tecnicoSelecionado = "Todos" <;>
      simp [hc, ht, beq_eq_decide, List.filter_filter, Bool.and_comm]

/-- C1 — For every record set and selector, the filter output is exactly
`List.filter` of the conjunction (city sentinel OR case-sensitive exact
city equality) AND (technician sentinel OR case-sensitive exact technician
equality): so a record occurrence is included iff it satisfies the
predicate, and the relative order of matched records is preserved. -/
theorem df_filtrado_eq_filter (df : List SiteRecord) (sel : Selector) :
    df_filtrado df sel = df.filter (filterPred sel) :=
  df_filtrado_filter_spec df sel

/-- C9 — Filtering with both sentinel values selected is the identity on the
record list: same records, same order. -/
theorem df_filtrado_sentinels_identity (df : List SiteRecord) :
    df_filtrado df ⟨"Todas", "Todos"⟩ = df := by
  simp [df_filtrado]

/-- Splitting a filtered length at a cons cell. -/
theorem length_filter_cons_split (p : SiteRecord → Bool) (r : SiteRecord)
    (t : List SiteRecord) :
    ((r :: t).filter p).length = (t.filter p).length + (if p r then 1 else 0) := by
  by_cases h : p r <;> simp [List.filter_cons, h]

/-- `com_monitor` on a cons cell. -/
theorem com_monitor_cons (r : SiteRecord) (t : List SiteRecord) :
    com_monitor (r :: t) =
      com_monitor t + (if r.monitorEnergia = "Sim" then 1 else 0) := by
  by_cases h : r.monitorEnergia = "Sim" <;>
    simp [com_monitor, List.filter_cons, h]

/-- `sem_monitor` on a cons cell. -/
theorem sem_monitor_cons (r : SiteRecord) (t : List SiteRecord) :
    sem_monitor (r :: t) =
      sem_monitor t + (if r.monitorEnergia = "Não" then 1 else 0) := by
  by_cases h : r.monitorEnergia = "Não" <;>
    simp [sem_monitor, List.filter_cons, h]

/-- `total_pops` on a cons cell. -/
theorem total_pops_cons (r : SiteRecord) (t : List SiteRecord) :
    total_pops (r :: t) = total_pops t + 1 := rfl

/-- The two monitor counts partition at most the whole subset, exactly when
all statuses are canonical. -/
theorem counts_le_and_eq_iff (l : List SiteRecord) :
    com_monitor l + sem_monitor l ≤ total_pops l ∧
    (com_monitor l + sem_monitor l = total_pops l ↔
      ∀ r ∈ l, r.monitorEnergia = "Sim" ∨ r.monitorEnergia = "Não") := by
  induction l with
  | nil => simp [com_monitor, sem_monitor, total_pops]
  | cons r t ih =>
    obtain ⟨ih1, ih2⟩ := ih
    rw [com_monitor_cons, sem_monitor_cons, total_pops_cons, List.forall_mem_cons]
    by_cases hS : r.monitorEnergia = "Sim"
    · have hN : ¬ r.monitorEnergia = "Não" := by rw [hS]; decide
      rw [if_pos hS, if_neg hN]
      refine ⟨by omega, ?_⟩
      constructor
      · intro h
        exact ⟨Or.inl hS, ih2.mp (by omega)⟩
      · intro h
        have := ih2.mpr h.2
        omega
    · by_cases hN : r.monitorEnergia = "Não"
      · rw [if_neg hS, if_pos hN]
        refine ⟨by omega, ?_⟩
        constructor
        · intro h
          exact ⟨Or.inr hN, ih2.mp (by omega)⟩
        · intro h
          have := ih2.mpr h.2
          omega
      · rw [if_neg hS, if_neg hN]
        refine ⟨by omega, ?_⟩
        constructor
        · intro h
          exact absurd h (by omega)
        · intro h
          rcases h.1 with h1 | h1
          · exact absurd h1 hS
          · exact absurd h1 hN

/-- C2 — `com_monitor + sem_monitor ≤ total_pops`, with equality exactly when
the monitor column of every record is one of the canonical literals `"Sim"` /
`"Não"`; hence a record carrying any other value (e.g. `"Talvez"`) is counted
in the total but in neither of the two monitor counts, and makes the
inequality strict. -/
theorem com_add_sem_le_total (l : List SiteRecord) :
    com_monitor l + sem_monitor l ≤ total_pops l ∧
    (com_monitor l + sem_monitor l = total_pops l ↔
      ∀ r ∈ l, r.monitorEnergia = "Sim" ∨ r.monitorEnergia = "Não") :=
  counts_le_and_eq_iff l

/-- C3 (amended) — the completion percentage is always within `[0, 100]`;
it is `0` when the subset is empty, and in general it vanishes exactly when
`com_monitor` vanishes (which includes, but is not limited to, the empty
subset). -/
theorem percentual_com_monitor_bounds (l : List SiteRecord) :
    0 ≤ percentual_com_monitor l ∧ percentual_com_monitor l ≤ 100 ∧
    (total_pops l = 0 → percentual_com_monitor l = 0) ∧
    (percentual_com_monitor l = 0 ↔ com_monitor l = 0) := by
  have hct : com_monitor l ≤ total_pops l := List.length_filter_le _ _
  unfold percentual_com_monitor
  by_cases h : total_pops l > 0
  · simp only [h, if_true]
    have htQ : (0 : ℚ) < (total_pops l : ℚ) := by exact_mod_cast h
    have hcQ : (com_monitor l : ℚ) ≤ (total_pops l : ℚ) := by exact_mod_cast hct
    refine ⟨by positivity, ?_, by omega, ?_⟩
    · rw [div_mul_eq_mul_div, div_le_iff₀ htQ]
      nlinarith
    · rw [div_mul_eq_mul_div, div_eq_zero_iff]
      constructor
      · rintro (h0 | h0)
        · rcases mul_eq_zero.mp h0 with h1 | h1
          · exact_mod_cast h1
          · norm_num at h1
        · exact absurd h0 (ne_of_gt htQ)
      · intro h0
        left
        simp [h0]
  · simp only [h, if_false]
    have h0 : com_monitor l = 0 := by omega
    simp [h0]

/-- A concrete record whose monitor column holds the canonical `"Não"`. -/
def exRecordNao : SiteRecord :=
  { cidade := "A", responsavelTecnico := "X", localVistoria := "POP 1",
    monitorEnergia := "Não", tipoMonitor := "", ligacaoMonitor := "",
    observacoes := "", linkEvidencias := "" }

/-- C3 counterexample — on the one-record subset `[exRecordNao]` the
percentage is `0` even though the total is `1 ≠ 0`: the percentage computed by the code
also vanishes on any non-empty subset with no monitored record, so
"equals 0 iff total == 0" fails on the code. -/
theorem percentual_zero_iff_total_zero_fails :
    ¬ (percentual_com_monitor [exRecordNao] = 0 ↔ total_pops [exRecordNao] = 0) := by
  intro hiff
  have hcom : com_monitor [exRecordNao] = 0 := by decide
  have htot : total_pops [exRecordNao] = 1 := by decide
  have hp : percentual_com_monitor [exRecordNao] = 0 := by
    simp [percentual_com_monitor, hcom, htot]
  rw [htot] at hiff
  exact one_ne_zero (hiff.mp hp)

/-! ### Contingency (pivot) tables, lines 127 and 138 -/

/-- Distinct values of a column, in first appearance order.  (The pandas
pivot additionally sorts its index lexicographically; no property below
depends on row or column order.) -/
def columnKeys (f : SiteRecord → String) (l : List SiteRecord) : List String :=
  (l.map f).dedup

/-- One cell of `groupby([key, status]).size()`: the number of rows of the
subset with the given key value and the given status value. -/
def cellCount (f g : SiteRecord → String) (l : List SiteRecord)
    (c s : String) : Nat :=
  (l.filter (fun r => f r == c && g r == s)).length

/-- `groupby([key, status]).size().unstack(fill_value=0)`: one row per
distinct key value, one column per distinct status value present anywhere in
the subset, absent combinations filled with 0. -/
def pivotTable (f g : SiteRecord → String) (l : List SiteRecord) :
    List (String × List (String × Nat)) :=
  (columnKeys f l).map (fun c =>
    (c, (columnKeys g l).map (fun s => (s, cellCount f g l c s))))

/-- Line 127: the city × status table. -/
def cidade_counts (l : List SiteRecord) : List (String × List (String × Nat)) :=
  pivotTable (fun r => r.cidade) (fun r => r.monitorEnergia) l

/-- Line 138: the technician × status table. -/
def tecnico_counts (l : List SiteRecord) : List (String × List (String × Nat)) :=
  pivotTable (fun r => r.responsavelTecnico) (fun r => r.monitorEnergia) l

/-- Sum of all cells of a pivot table. -/
def sumCells (t : List (String × List (String × Nat))) : Nat :=
  (t.map (fun row => (row.2.map (fun cell => cell.2)).sum)).sum

theorem sum_map_zero_nat {α : Type} (S : List α) :
    (S.map (fun _ => (0 : Nat))).sum = 0 := by
  induction S <;> simp [*]

theorem sum_map_add_nat {α : Type} (S : List α) (f g : α → Nat) :
    (S.map (fun s => f s + g s)).sum = (S.map f).sum + (S.map g).sum := by
  induction S with
  | nil => simp
  | cons a T ih => simp [ih]; omega

/-- Over a duplicate-free list containing `b`, the indicator of `b` sums
to one. -/
theorem sum_indicator_eq_one (b : String) :
    ∀ S : List String, S.Nodup → b ∈ S →
      (S.map (fun s => if b = s then (1 : Nat) else 0)).sum = 1 := by
  intro S
  induction S with
  | nil => intro _ h; cases h
  | cons a T ih =>
    intro hnd hb
    rcases List.mem_cons.mp hb with rfl | hbT
    · have hz : (T.map (fun s => if b = s then (1 : Nat) else 0)).sum = 0 := by
        have : T.map (fun s => if b = s then (1 : Nat) else 0) =
            T.map (fun _ => (0 : Nat)) := by
          apply List.map_congr_left
          intro s hs
          have hne : b ≠ s := fun h => (List.nodup_cons.mp hnd).1 (h ▸ hs)
          simp [hne]
        rw [this, sum_map_zero_nat]
      simp [hz]
    · have hne : b ≠ a := by
        rintro rfl
        exact (List.nodup_cons.mp hnd).1 hbT
      simp [hne, ih (List.nodup_cons.mp hnd).2 hbT]

/-- The double indicator of a fixed pair `(a, b)` sums to one over a
duplicate-free rectangle containing it. -/
theorem double_sum_indicator (a b : String) (C S : List String)
    (hC : C.Nodup) (hS : S.Nodup) (ha : a ∈ C) (hb : b ∈ S) :
    (C.map (fun c =>
      (S.map (fun s => if a = c ∧ b = s then (1 : Nat) else 0)).sum)).sum = 1 := by
  have hinner : ∀ c, (S.map (fun s => if a = c ∧ b = s then (1 : Nat) else 0)).sum
      = if a = c then 1 else 0 := by
    intro c
    by_cases hac : a = c
    · simp only [hac, true_and, if_pos rfl]
      have := sum_indicator_eq_one b S hS hb
      simpa using this
    · have : S.map (fun s => if a = c ∧ b = s then (1 : Nat) else 0) =
          S.map (fun _ => (0 : Nat)) := by
        apply List.map_congr_left
        intro s _
        simp [hac]
      rw [this, sum_map_zero_nat, if_neg hac]
  simp only [hinner]
  exact sum_indicator_eq_one a C hC ha

/-- A cell count on a cons cell: the head contributes to exactly its own
(key, status) cell. -/
theorem cellCount_cons (f g : SiteRecord → String) (r : SiteRecord)
    (t : List SiteRecord) (c s : String) :
    cellCount f g (r :: t) c s =
      cellCount f g t c s + (if f r = c ∧ g r = s then 1 else 0) := by
  by_cases h1 : f r = c <;> by_cases h2 : g r = s <;>
    simp [cellCount, List.filter_cons, h1, h2]

/-- Partition law: summing all cells over any duplicate-free key/status
universes covering the subset yields the length of the subset. -/
theorem sum_cellCounts_eq_length (f g : SiteRecord → String)
    (l : List SiteRecord) (C S : List String) (hC : C.Nodup) (hS : S.Nodup)
    (hmem : ∀ r ∈ l, f r ∈ C ∧ g r ∈ S) :
    (C.map (fun c => (S.map (fun s => cellCount f g l c s)).sum)).sum
      = l.length := by
  induction l with
  | nil =>
    have : C.map (fun c => (S.map (fun s => cellCount f g [] c s)).sum) =
        C.map (fun _ => (0 : Nat)) := by
      apply List.map_congr_left
      intro c _
      have : S.map (fun s => cellCount f g [] c s) = S.map (fun _ => (0 : Nat)) := by
        apply List.map_congr_left
        intro s _
        simp [cellCount]
      rw [this, sum_map_zero_nat]
    rw [this, sum_map_zero_nat]
    simp
  | cons r t ih =>
    have hmem_t : ∀ x ∈ t, f x ∈ C ∧ g x ∈ S :=
      fun x hx => hmem x (List.mem_cons_of_mem r hx)
    obtain ⟨hfC, hgS⟩ := hmem r (List.mem_cons_self r t)
    have h1 : ∀ c, (S.map (fun s => cellCount f g (r :: t) c s)).sum
        = (S.map (fun s => cellCount f g t c s)).sum +
          (S.map (fun s => if f r = c ∧ g r = s then (1 : Nat) else 0)).sum := by
      intro c
      rw [← sum_map_add_nat]
      apply congrArg
      apply List.map_congr_left
      intro s _
      exact cellCount_cons f g r t c s
    simp only [h1]
    rw [sum_map_add_nat, ih hmem_t,
      double_sum_indicator (f r) (g r) C S hC hS hfC hgS, List.length_cons]

/-- Summing all cells of a pivot table built from a subset gives the
record count of the subset. -/
theorem sumCells_pivotTable (f g : SiteRecord → String) (l : List SiteRecord) :
    sumCells (pivotTable f g l) = l.length := by
  have h := sum_cellCounts_eq_length f g l (columnKeys f l) (columnKeys g l)
    (List.nodup_dedup _) (List.nodup_dedup _)
    (fun r hr => ⟨List.mem_dedup.mpr (List.mem_map_of_mem f hr),
                  List.mem_dedup.mpr (List.mem_map_of_mem g hr)⟩)
  simpa [sumCells, pivotTable, List.map_map, Function.comp_def] using h

/-- C4 (amended) — the sum of all cells of the city × status pivot table and
of the technician × status pivot table each equal the total record count of
the subset; they coincide with `com_monitor + sem_monitor` exactly when
the status of every record is one of the two canonical literals. -/
theorem pivot_sums_eq_total (l : List SiteRecord) :
    sumCells (cidade_counts l) = total_pops l ∧
    sumCells (tecnico_counts l) = total_pops l ∧
    (sumCells (cidade_counts l) = com_monitor l + sem_monitor l ↔
      ∀ r ∈ l, r.monitorEnergia = "Sim" ∨ r.monitorEnergia = "Não") := by
  have hc : sumCells (cidade_counts l) = total_pops l :=
    sumCells_pivotTable _ _ l
  have ht : sumCells (tecnico_counts l) = total_pops l :=
    sumCells_pivotTable _ _ l
  refine ⟨hc, ht, ?_⟩
  rw [hc]
  rw [← (counts_le_and_eq_iff l).2]
  omega

/-- A concrete record with the non-canonical status `"Talvez"`. -/
def exRecordTalvez : SiteRecord :=
  { cidade := "A", responsavelTecnico := "X", localVistoria := "POP 2",
    monitorEnergia := "Talvez", tipoMonitor := "", ligacaoMonitor := "",
    observacoes := "", linkEvidencias := "" }

/-- C4 counterexample — on the one-record subset holding the non-canonical
status `"Talvez"`, the pivot tables get a `"Talvez"` column, so the sum of
all cells is `1` while `com_monitor + sem_monitor = 0`: the claimed equality
fails on the code. -/
theorem pivot_sum_ne_com_add_sem :
    ¬ (sumCells (cidade_counts [exRecordTalvez]) =
        com_monitor [exRecordTalvez] + sem_monitor [exRecordTalvez] ∧
       sumCells (tecnico_counts [exRecordTalvez]) =
        com_monitor [exRecordTalvez] + sem_monitor [exRecordTalvez]) := by
  intro h
  have h1 : sumCells (cidade_counts [exRecordTalvez]) = 1 := by decide
  have h2 : com_monitor [exRecordTalvez] + sem_monitor [exRecordTalvez] = 0 := by
    decide
  rw [h1, h2] at h
  exact one_ne_zero h.1

/-! ### Monitor-type frequency table, lines 322-325 -/

/-- Line 322: the monitored slice of the filtered subset. -/
def df_com_monitor (l : List SiteRecord) : List SiteRecord :=
  l.filter (fun r => r.monitorEnergia == "Sim")

/-- `Series.value_counts()`: frequency of each distinct value, one bucket
per distinct value including the empty string (pandas drops only missing
values, and worksheet cells load as strings with blanks as `""`); the
pandas descending-count result order is not significant to any property
proved below. -/
def value_counts (xs : List String) : List (String × Nat) :=
  xs.dedup.map (fun v => (v, xs.count v))

/-- Line 324: frequency table of monitor types among monitored rows. -/
def tipos_monitor (l : List SiteRecord) : List (String × Nat) :=
  value_counts ((df_com_monitor l).map (fun r => r.tipoMonitor))

/-- C8 (amended) — the monitor-type frequency table is empty iff no record
of the subset has `has_monitor == "Sim"`: a monitored record with a blank
`tipoMonitor` still contributes a `""` bucket. -/
theorem tipos_monitor_empty_iff (l : List SiteRecord) :
    tipos_monitor l = [] ↔ ∀ r ∈ l, r.monitorEnergia ≠ "Sim" := by
  unfold tipos_monitor value_counts df_com_monitor
  rw [List.map_eq_nil_iff, List.dedup_eq_nil, List.map_eq_nil_iff,
    List.filter_eq_nil_iff]
  constructor
  · intro h r hr hs
    exact h r hr (by simp [hs])
  · intro h r hr hb
    exact h r hr (by simpa using hb)

/-- A concrete monitored record whose monitor-type cell is blank. -/
def exRecordSimBlankTipo : SiteRecord :=
  { cidade := "A", responsavelTecnico := "X", localVistoria := "POP 3",
    monitorEnergia := "Sim", tipoMonitor := "", ligacaoMonitor := "",
    observacoes := "", linkEvidencias := "" }

/-- C8 counterexample — on the one-record subset holding a monitored record
with a blank type, the frequency table is `[("", 1)]`, not empty, although
no record has both `has_monitor == "Sim"` and a non-empty `monitor_type`:
the claimed equivalence fails on the code. -/
theorem tipos_monitor_empty_iff_nonblank_fails :
    ¬ (tipos_monitor [exRecordSimBlankTipo] = [] ↔
        ¬ ∃ r ∈ [exRecordSimBlankTipo],
            r.monitorEnergia = "Sim" ∧ r.tipoMonitor ≠ "") := by
  decide

/-! ### The render pass: aggregates versus the detail table -/

/-- Lines 163-167: per-technician totals, monitored counts and completion
percentage (`% Completo`), one row per distinct technician of the subset. -/
def progresso_tecnico (l : List SiteRecord) : List (String × Nat × Nat × ℚ) :=
  (columnKeys (fun r => r.responsavelTecnico) l).map (fun tec =>
    let grp := l.filter (fun r => r.responsavelTecnico == tec)
    let tot := grp.length
    let com := (grp.filter (fun r => r.monitorEnergia == "Sim")).length
    (tec, tot, com, (com : ℚ) / (tot : ℚ) * 100))

/-- Lines 185-190: the detail-table rows — the filtered subset, further
narrowed to unmonitored rows when the `mostrar_apenas_sem_monitor` checkbox
is on. -/
def df_tabela (df : List SiteRecord) (sel : Selector) (chk : Bool) :
    List SiteRecord :=
  if chk then (df_filtrado df sel).filter (fun r => r.monitorEnergia == "Não")
  else df_filtrado df sel

/-- The data produced by one render pass of the dashboard page. -/
structure RenderModel where
  total : Nat
  com : Nat
  sem : Nat
  percentual : ℚ
  cidadeCounts : List (String × List (String × Nat))
  tecnicoCounts : List (String × List (String × Nat))
  statusCounts : List (String × Nat)
  progressoTecnico : List (String × Nat × Nat × ℚ)
  tiposMonitor : List (String × Nat)
  tabela : List SiteRecord

/-- One render pass for a loaded table, selector and checkbox state: every
aggregate (lines 106-177 and 322-324) is computed from `df_filtrado`, while
the checkbox enters only the detail table (lines 185-190). -/
def renderModel (df : List SiteRecord) (sel : Selector) (chk : Bool) :
    RenderModel :=
  let fl := df_filtrado df sel
  { total := total_pops fl
    com := com_monitor fl
    sem := sem_monitor fl
    percentual := percentual_com_monitor fl
    cidadeCounts := cidade_counts fl
    tecnicoCounts := tecnico_counts fl
    statusCounts := value_counts (fl.map (fun r => r.monitorEnergia))
    progressoTecnico := progresso_tecnico fl
    tiposMonitor := tipos_monitor fl
    tabela := df_tabela df sel chk }

/-- C10 — toggling the unmonitored-only checkbox changes none of the
aggregation outputs (counts, percentage, both pivot tables, status counts,
per-technician completion, monitor types); it only narrows the detail table,
and it does so after the city/technician filter: with the checkbox on the
table is exactly the unmonitored slice of the checkbox-off table. -/
theorem checkbox_narrows_only_table (df : List SiteRecord) (sel : Selector) :
    (renderModel df sel true).total = (renderModel df sel false).total ∧
    (renderModel df sel true).com = (renderModel df sel false).com ∧
    (renderModel df sel true).sem = (renderModel df sel false).sem ∧
    (renderModel df sel true).percentual = (renderModel df sel false).percentual ∧
    (renderModel df sel true).cidadeCounts = (renderModel df sel false).cidadeCounts ∧
    (renderModel df sel true).tecnicoCounts = (renderModel df sel false).tecnicoCounts ∧
    (renderModel df sel true).statusCounts = (renderModel df sel false).statusCounts ∧
    (renderModel df sel true).progressoTecnico
      = (renderModel df sel false).progressoTecnico ∧
    (renderModel df sel true).tiposMonitor = (renderModel df sel false).tiposMonitor ∧
    (renderModel df sel true).tabela
      = (renderModel df sel false).tabela.filter
          (fun r => r.monitorEnergia == "Não") :=
  ⟨rfl, rfl, rfl, rfl, rfl, rfl, rfl, rfl, rfl, rfl⟩

/-! ### Required-columns check, lines 78-86 -/

/-- Lines 78-82: the canonical required column names, in source order. -/
def required_cols : List String :=
  ["Cidade", "Responsável Técnico", "Local de Vistoria (POP)",
   "Monitor de Energia (Sim/Não)", "Tipo de Monitor", "Ligação do Monitor",
   "Observações", "Link para Evidências (Fotos)"]

/-- Line 85: the warning text shown for a missing column. -/
def missingColumnWarning (col : String) : String :=
  "A coluna " ++ col ++ " não foi encontrada na planilha. Por favor, " ++
  "verifique o cabeçalho da sua planilha no Google Sheets."

/-- Lines 83-86: scan the required columns in order against the loaded
header; a present column lets the loop continue, an absent one emits its
warning and halts the script right there (`st.stop()` raises immediately,
so no later column is examined).  Returns the emitted warnings and whether
the script halted. -/
def checkColsLoop (dfCols : List String) : List String → List String × Bool
  | [] => ([], false)
  | c :: rest =>
    if dfCols.contains c then checkColsLoop dfCols rest
    else ([missingColumnWarning c], true)

/-- The whole required-columns check against the loaded header. -/
def checkRequiredCols (dfCols : List String) : List String × Bool :=
  checkColsLoop dfCols required_cols

/-- The first required column absent from the loaded header, if any. -/
def firstMissing (dfCols : List String) : Option String :=
  required_cols.find? (fun c => !(dfCols.contains c))

/-- The render pipeline for a non-empty loaded table (the `if not df.empty`
branch, lines 76-337): the column check runs first, and all metrics, charts
and tables are produced only when it did not halt. -/
def renderDashboard (dfCols : List String) (df : List SiteRecord)
    (sel : Selector) (chk : Bool) : List String × Option RenderModel :=
  let check := checkRequiredCols dfCols
  if check.2 then (check.1, none)
  else (check.1, some (renderModel df sel chk))

/-- The scanning loop reports exactly the first missing column. -/
theorem checkColsLoop_spec (dfCols : List String) (cs : List String) :
    checkColsLoop dfCols cs
      = (((cs.find? (fun c => !(dfCols.contains c))).map
            missingColumnWarning).toList,
         (cs.find? (fun c => !(dfCols.contains c))).isSome) := by
  induction cs with
  | nil => rfl
  | cons c rest ih =>
    by_cases h : c ∈ dfCols
    · rw [List.find?_cons_of_neg _ (by simp [h])]
      simpa [checkColsLoop, h] using ih
    · rw [List.find?_cons_of_pos _ (by simp [h])]
      simp [checkColsLoop, h]

/-- C6 (amended) — whenever some required column is absent from the loaded
header, the pipeline halts before producing any metric, chart or table, and
it surfaces exactly one diagnostic: the warning for the first missing
column in canonical order (`st.stop()` ends the scan there, so later
missing columns get no diagnostic of their own). -/
theorem missing_column_halts_with_first_warning (dfCols : List String)
    (df : List SiteRecord) (sel : Selector) (chk : Bool) :
    (renderDashboard dfCols df sel chk).1
        = ((firstMissing dfCols).map missingColumnWarning).toList ∧
    ((renderDashboard dfCols df sel chk).2 = none ↔
      (firstMissing dfCols).isSome) := by
  unfold renderDashboard checkRequiredCols firstMissing
  rw [checkColsLoop_spec]
  rcases h : List.find? (fun c => !(dfCols.contains c)) required_cols with _ | c
  · simp [h]
  · simp [h]

/-- A concrete loaded header carrying only the city column. -/
def exColsOnlyCidade : List String := ["Cidade"]

set_option maxRecDepth 8000 in
/-- C6 counterexample — with a header containing only `Cidade`, seven
required columns are missing, yet the pipeline surfaces a single diagnostic
(the one for `Responsável Técnico`, the first missing column); in
particular the missing `Tipo de Monitor` column gets no diagnostic, so the
per-missing-column part of the claim fails on the code (the halt itself
does happen). -/
theorem missing_column_single_warning :
    (renderDashboard exColsOnlyCidade [] ⟨"Todas", "Todos"⟩ false).2 = none ∧
    (renderDashboard exColsOnlyCidade [] ⟨"Todas", "Todos"⟩ false).1
      = [missingColumnWarning "Responsável Técnico"] ∧
    "Tipo de Monitor" ∈ required_cols ∧
    "Tipo de Monitor" ∉ exColsOnlyCidade ∧
    missingColumnWarning "Tipo de Monitor"
      ∉ (renderDashboard exColsOnlyCidade [] ⟨"Todas", "Todos"⟩ false).1 := by
  refine ⟨rfl, rfl, by decide, by decide, ?_⟩
  intro h
  rcases List.mem_singleton.mp h with h
  exact absurd (congrArg (fun s => s.length) h) (by decide)

/-! ### Saving the edited table, lines 51-60 and 185-315 -/

/-- The list-of-cells form of one saved row: the record under the canonical
column order. -/
def recordToRow (r : SiteRecord) : List String :=
  [r.cidade, r.responsavelTecnico, r.localVistoria, r.monitorEnergia,
   r.tipoMonitor, r.ligacaoMonitor, r.observacoes, r.linkEvidencias]

/-- Result of `update_data_to_gsheets` (lines 51-60): on success the
destination worksheet is cleared and rewritten as the header row
(`df_updated.columns`) followed by the rows of `df_updated`; on failure
(any exception raised by the remote service) an error message is shown and
the destination is left in an unspecified partial state (`none` here). -/
structure SaveOutcome where
  message : String
  sheetAfter : Option (List (List String))
deriving DecidableEq, Repr

/-- Lines 51-60, with the remote failure abstracted as the flag `fail`. -/
def update_data_to_gsheets (df_updated : List SiteRecord) (fail : Bool) :
    SaveOutcome :=
  if fail then
    { message := "❌ Erro ao atualizar dados no Google Sheets"
      sheetAfter := none }
  else
    { message := "✅ Dados atualizados com sucesso no Google Sheets!"
      sheetAfter := some (required_cols :: df_updated.map recordToRow) }

/-- The page state the save button interacts with: the current content of
the editable grid (`edited_df`, the widget state, which survives the rerun
of line 315), the remote worksheet, and the messages shown so far. -/
structure AppState where
  edited_df : List SiteRecord
  sheet : List (List String)
  messages : List String
deriving DecidableEq, Repr

/-- Lines 214-315: the save-button handler calls
`update_data_to_gsheets(edited_df)` and reruns the page.  It never assigns
to `edited_df`.  `partialSheet` stands for the unspecified partial content
the destination holds when the write raised mid-way. -/
def saveClickHandler (s : AppState) (fail : Bool)
    (partialSheet : List (List String)) : AppState :=
  let outcome := update_data_to_gsheets s.edited_df fail
  { edited_df := s.edited_df
    sheet :=
      match outcome.sheetAfter with
      | some ws => ws
      | none => partialSheet
    messages := s.messages ++ [outcome.message] }

/-- C5 — when the save fails, the failure is surfaced as a user-visible
error message appended to the page, and the in-memory edited table is left
exactly as it was, whatever partial state the remote sheet ended in — so
the user can retry the save without re-entering the edits. -/
theorem save_failure_reports_and_preserves_edits (s : AppState)
    (partialSheet : List (List String)) :
    (saveClickHandler s true partialSheet).edited_df = s.edited_df ∧
    (saveClickHandler s true partialSheet).messages
      = s.messages ++ ["❌ Erro ao atualizar dados no Google Sheets"] :=
  ⟨rfl, rfl⟩

/-- The visibility predicate of the detail table: the record passes the
city/technician filter and, when the checkbox is on, is unmonitored. -/
def tableVisible (sel : Selector) (chk : Bool) (r : SiteRecord) : Bool :=
  filterPred sel r && (!chk || r.monitorEnergia == "Não")

/-- A record of the detail table satisfies the visibility predicate. -/
theorem mem_df_tabela_visible (df : List SiteRecord) (sel : Selector)
    (chk : Bool) (r : SiteRecord) (hr : r ∈ df_tabela df sel chk) :
    tableVisible sel chk r = true := by
  unfold df_tabela at hr
  unfold tableVisible
  cases chk with
  | false =>
    rw [if_neg (by simp), df_filtrado_filter_spec] at hr
    simp [List.mem_filter.mp hr |>.2]
  | true =>
    rw [if_pos rfl] at hr
    have h1 := List.mem_filter.mp hr
    have h2 := List.mem_filter.mp
      (df_filtrado_filter_spec df sel ▸ h1.1)
    simp [h1.2, h2.2]

/-- C7 — pressing save overwrites the destination with exactly the
currently displayed edited table: the successful write produces the header
row followed by the rows of `df_tabela` (the city/technician-filtered and,
with the checkbox on, unmonitored-only view).  Consequently any record
hidden by those filters is absent from `df_tabela` and hence from the saved
rows. -/
theorem save_overwrites_with_filtered_view (df : List SiteRecord)
    (sel : Selector) (chk : Bool) (r : SiteRecord)
    (h : ¬ tableVisible sel chk r = true) :
    (update_data_to_gsheets (df_tabela df sel chk) false).sheetAfter
      = some (required_cols :: (df_tabela df sel chk).map recordToRow) ∧
    r ∉ df_tabela df sel chk := by
  refine ⟨rfl, fun hr => h (mem_df_tabela_visible df sel chk r hr)⟩

set_option maxRecDepth 4000 in
/-- Witness for C7 at a concrete input: the record lives in city `A`, the
selector picks city `B`, so the record is invisible and is indeed not among
the saved rows. -/
theorem save_overwrites_with_filtered_view_witness :
    (update_data_to_gsheets
        (df_tabela [exRecordNao] ⟨"B", "Todos"⟩ false) false).sheetAfter
      = some (required_cols ::
          (df_tabela [exRecordNao] ⟨"B", "Todos"⟩ false).map recordToRow) ∧
    exRecordNao ∉ df_tabela [exRecordNao] ⟨"B", "Todos"⟩ false :=
  save_overwrites_with_filtered_view [exRecordNao] ⟨"B", "Todos"⟩ false
    exRecordNao (by decide)

/-- Witness for C2 at the concrete one-record subset with status `"Talvez"`:
the two counts sum to `0 < 1 = total`, and indeed not every status is
canonical there. -/
theorem com_add_sem_le_total_witness :
    com_monitor [exRecordTalvez] + sem_monitor [exRecordTalvez]
        ≤ total_pops [exRecordTalvez] ∧
    (com_monitor [exRecordTalvez] + sem_monitor [exRecordTalvez]
        = total_pops [exRecordTalvez] ↔
      ∀ r ∈ [exRecordTalvez],
        r.monitorEnergia = "Sim" ∨ r.monitorEnergia = "Não") :=
  com_add_sem_le_total [exRecordTalvez]

/-- Witness for C3 (amended) at the concrete one-record unmonitored
subset. -/
theorem percentual_com_monitor_bounds_witness :
    0 ≤ percentual_com_monitor [exRecordNao] ∧
    percentual_com_monitor [exRecordNao] ≤ 100 ∧
    (total_pops [exRecordNao] = 0 → percentual_com_monitor [exRecordNao] = 0) ∧
    (percentual_com_monitor [exRecordNao] = 0 ↔ com_monitor [exRecordNao] = 0) :=
  percentual_com_monitor_bounds [exRecordNao]

/-- Witness for C4 (amended) at the concrete one-record subset with status
`"Talvez"`. -/
theorem pivot_sums_eq_total_witness :
    sumCells (cidade_counts [exRecordTalvez]) = total_pops [exRecordTalvez] ∧
    sumCells (tecnico_counts [exRecordTalvez]) = total_pops [exRecordTalvez] ∧
    (sumCells (cidade_counts [exRecordTalvez])
        = com_monitor [exRecordTalvez] + sem_monitor [exRecordTalvez] ↔
      ∀ r ∈ [exRecordTalvez],
        r.monitorEnergia = "Sim" ∨ r.monitorEnergia = "Não") :=
  pivot_sums_eq_total [exRecordTalvez]

/-- Witness for C8 (amended) at the concrete monitored record with a blank
type cell. -/
theorem tipos_monitor_empty_iff_witness :
    tipos_monitor [exRecordSimBlankTipo] = [] ↔
      ∀ r ∈ [exRecordSimBlankTipo], r.monitorEnergia ≠ "Sim" :=
  tipos_monitor_empty_iff [exRecordSimBlankTipo]

/-- Witness for C6 (amended) at the concrete header carrying only the city
column. -/
theorem missing_column_halts_with_first_warning_witness :
    (renderDashboard exColsOnlyCidade [] ⟨"Todas", "Todos"⟩ false).1
        = ((firstMissing exColsOnlyCidade).map missingColumnWarning).toList ∧
    ((renderDashboard exColsOnlyCidade [] ⟨"Todas", "Todos"⟩ false).2 = none ↔
      (firstMissing exColsOnlyCidade).isSome) :=
  missing_column_halts_with_first_warning exColsOnlyCidade []
    ⟨"Todas", "Todos"⟩ false

end Dashboard
